import Mathlib

/-!
Verification of sentry/web/frontend/react_page.py.

The module defines a mixin (ReactMixin) producing a render context and an
HTTP response, and four view variants dispatching to it:
ReactPageView (Organization scope), GenericReactPageView (Generic scope),
DemoReactPageView (OrganizationDemo scope) and
GenericDemoReactPageView (GenericDemo scope).

Side effects (CSRF token generation, template rendering, signal emission,
message enqueueing) are modelled as an explicit ordered effect trace.
The templating engine is modelled as an arbitrary function parameter
`render` from contexts to strings.
-/

/-- An incoming HTTP request: its path, its query parameters (GET, as an
ordered list of key/value pairs) and the current principal (user id). -/
structure Request where
  path : String
  GET : List (String × String)
  user : Nat
deriving DecidableEq, Repr

/-- A value stored in the render context mapping. -/
inductive CtxValue where
  | bool : Bool → CtxValue
  | req : Request → CtxValue
  | str : String → CtxValue
deriving DecidableEq, Repr

/-- A project row: `Project.objects` is modelled as a list of these. -/
structure Project where
  organization : Nat
  slug : String
deriving DecidableEq, Repr

/-- One observable side effect, in program order. -/
inductive Effect where
  | csrfToken
  | renderTemplate (ctx : List (String × CtxValue))
  | firstEventPending (project : Option Project) (user : Nat)
  | addMessage (level : Nat) (message : String)
deriving DecidableEq, Repr

/-- An HTTP response: status, Content-Type header, body. -/
structure Response where
  status : Nat
  contentType : String
  body : String
deriving DecidableEq, Repr

/-- django.http.HttpResponse(body): status 200, default content type. -/
def HttpResponse (body : String) : Response :=
  { status := 200, contentType := "text/html; charset=utf-8", body := body }

/-- settings.CSRF_COOKIE_NAME (Django default configuration constant). -/
def CSRF_COOKIE_NAME : String := "csrftoken"

/-- django.contrib.messages.WARNING level constant. -/
def WARNING : Nat := 30

/-- The fixed demo-disclaimer text passed to messages.add_message. -/
def demo_message : String :=
  "This is a DEMO. Data will not be written to database and you are logged in as dummy user. This is a Sentry playground with dummy/demo data! Feel free to mess around!"

/-- Django QueryDict.get: the value for a key is the LAST value submitted
under that key, or none when the key is absent. -/
def qget : List (String × String) → String → Option String
  | [], _ => none
  | (k, v) :: rest, key =>
    match qget rest key with
    | some w => some w
    | none => if k == key then some v else none

/-- Lookup in a dict with unique keys (kwargs, render context): first match. -/
def kwget {α : Type} : List (String × α) → String → Option α
  | [], _ => none
  | (k, v) :: rest, key => if k == key then some v else kwget rest key

/-- Python truthiness of an optional string: None and the empty string are
falsy, every other string is truthy. -/
def truthy : Option String → Bool
  | none => false
  | some s => s != ""

/-- Project.objects.filter(organization=.., slug=..).first(): the first row
matching both fields, or none. -/
def projectFilterFirst (db : List Project) (organization : Nat) (slug : String) :
    Option Project :=
  (db.filter (fun p => p.organization == organization && p.slug == slug)).head?

/-- ReactMixin.get_context: the render context mapping. -/
def get_context (request : Request) : List (String × CtxValue) :=
  [("is_demo", CtxValue.bool (request.path.startsWith "/sentry/earth/")),
   ("request", CtxValue.req request),
   ("CSRF_COOKIE_NAME", CtxValue.str CSRF_COOKIE_NAME)]

/-- ReactMixin.handle_react: build the context, force a CSRF token into the
cookie jar, render the shell template, wrap it in a 200 text/html response.
The effect trace records the CSRF side effect and the rendering, in program
order. -/
def handle_react (render : List (String × CtxValue) → String) (request : Request) :
    Response × List Effect :=
  let context := get_context request
  let template := render context
  let response := HttpResponse template
  let response := { response with contentType := "text/html" }
  (response, [Effect.csrfToken, Effect.renderTemplate context])

/-- ReactPageView.handle (Organization scope): when kwargs carries
project_id and the onboarding query value is truthy, look up the project
and send the first_event_pending signal; then delegate to handle_react. -/
def ReactPageView.handle (db : List Project)
    (render : List (String × CtxValue) → String) (request : Request)
    (organization : Nat) (kwargs : List (String × String)) :
    Response × List Effect :=
  let pre : List Effect :=
    match kwget kwargs "project_id" with
    | some slug =>
      if truthy (qget request.GET "onboarding") then
        [Effect.firstEventPending (projectFilterFirst db organization slug)
          request.user]
      else []
    | none => []
  let r := handle_react render request
  (r.1, pre ++ r.2)

/-- GenericReactPageView.handle (Generic scope): delegate to handle_react. -/
def GenericReactPageView.handle (render : List (String × CtxValue) → String)
    (request : Request) (kwargs : List (String × String)) :
    Response × List Effect :=
  handle_react render request

/-- DemoReactPageView.handle (OrganizationDemo scope): delegate to
handle_react, then enqueue the warning demo disclaimer. The organization
argument is accepted but never read. -/
def DemoReactPageView.handle (render : List (String × CtxValue) → String)
    (request : Request) (organization : Nat) (kwargs : List (String × String)) :
    Response × List Effect :=
  let r := handle_react render request
  (r.1, r.2 ++ [Effect.addMessage WARNING demo_message])

/-- GenericDemoReactPageView.handle (GenericDemo scope): delegate to
handle_react and return its response unchanged. -/
def GenericDemoReactPageView.handle (render : List (String × CtxValue) → String)
    (request : Request) (kwargs : List (String × String)) :
    Response × List Effect :=
  let response := handle_react render request
  response

/-- The four view variants (scopes). -/
inductive Scope where
  | organization
  | generic
  | organizationDemo
  | genericDemo
deriving DecidableEq, Repr

/-- Variant dispatch: the handle method of the view for the given scope. -/
def dispatch (db : List Project) (render : List (String × CtxValue) → String)
    (scope : Scope) (request : Request) (organization : Nat)
    (kwargs : List (String × String)) : Response × List Effect :=
  match scope with
  | .organization => ReactPageView.handle db render request organization kwargs
  | .generic => GenericReactPageView.handle render request kwargs
  | .organizationDemo => DemoReactPageView.handle render request organization kwargs
  | .genericDemo => GenericDemoReactPageView.handle render request kwargs

/-- Recognizer for the first_event_pending signal effect. -/
def isFirstEventPending : Effect → Bool
  | .firstEventPending _ _ => true
  | _ => false

/-- Recognizer for the message-enqueue effect. -/
def isAddMessage : Effect → Bool
  | .addMessage _ _ => true
  | _ => false

/-- Recognizer for the CSRF-token effect. -/
def isCsrfToken : Effect → Bool
  | .csrfToken => true
  | _ => false

/-- Recognizer for the template-rendering effect. -/
def isRenderTemplate : Effect → Bool
  | .renderTemplate _ => true
  | _ => false

/-- A concrete templating function used for closed evaluations. -/
def render0 : List (String × CtxValue) → String := fun _ => "shell"

/-- A concrete onboarding request used for closed evaluations. -/
def reqOnboarding : Request :=
  { path := "/organizations/acme/projects/", GET := [("onboarding", "1")], user := 7 }

/-- Claim C1, counterexample: with an empty project table the slug matches
no project, yet ReactPageView.handle still emits one first_event_pending
event (carrying no project), not zero. -/
theorem C1_counterexample :
    projectFilterFirst [] 0 "internal" = none ∧
    ((ReactPageView.handle [] render0 reqOnboarding 0
        [("project_id", "internal")]).2.countP isFirstEventPending) = 1 := by
  decide

/-- Claim C1 (amended): for the Organization scope, whenever the onboarding
query value is truthy and a project_id parameter is supplied, exactly one
first_event_pending event is emitted, carrying the result of the project
lookup by organization and slug (the project when found, no project on a
miss) and the current principal; otherwise zero events are emitted. -/
theorem C1_first_event_payload (db : List Project)
    (render : List (String × CtxValue) → String) (request : Request)
    (organization : Nat) (kwargs : List (String × String)) :
    (ReactPageView.handle db render request organization kwargs).2.filter
        isFirstEventPending =
      match kwget kwargs "project_id" with
      | some slug =>
        if truthy (qget request.GET "onboarding") then
          [Effect.firstEventPending (projectFilterFirst db organization slug)
            request.user]
        else []
      | none => [] := by
  cases h : kwget kwargs "project_id" with
  | none => simp [ReactPageView.handle, handle_react, h, isFirstEventPending]
  | some slug =>
    cases ht : truthy (qget request.GET "onboarding") <;>
      simp [ReactPageView.handle, handle_react, h, ht, isFirstEventPending]

/-- A concrete demo-path request used for closed evaluations. -/
def reqDemo : Request :=
  { path := "/sentry/earth/issues/", GET := [], user := 2 }

/-- Claim C2, counterexample: a call to the GenericDemo scope view
(GenericDemoReactPageView.handle) enqueues zero messages, not exactly one. -/
theorem C2_counterexample :
    ((GenericDemoReactPageView.handle render0 reqDemo []).2.countP
        isAddMessage) = 0 := by
  decide

/-- Claim C2 (amended): exactly one warning-level message with the fixed
demo-disclaimer text is enqueued per call for the OrganizationDemo scope
(DemoReactPageView); zero messages are enqueued for the Generic,
Organization and GenericDemo scopes. -/
theorem C2_messages (db : List Project)
    (render : List (String × CtxValue) → String) (scope : Scope)
    (request : Request) (organization : Nat) (kwargs : List (String × String)) :
    (dispatch db render scope request organization kwargs).2.filter
        isAddMessage =
      if scope = Scope.organizationDemo then
        [Effect.addMessage WARNING demo_message]
      else [] := by
  cases scope with
  | organization =>
    cases h : kwget kwargs "project_id" with
    | none =>
      simp [dispatch, ReactPageView.handle, handle_react, h, isAddMessage]
    | some slug =>
      cases ht : truthy (qget request.GET "onboarding") <;>
        simp [dispatch, ReactPageView.handle, handle_react, h, ht, isAddMessage]
  | generic =>
    simp [dispatch, GenericReactPageView.handle, handle_react, isAddMessage]
  | organizationDemo =>
    simp [dispatch, DemoReactPageView.handle, handle_react, isAddMessage]
  | genericDemo =>
    simp [dispatch, GenericDemoReactPageView.handle, handle_react, isAddMessage]

/-- Claim C3: under every Scope variant, the context actually rendered is
get_context of the request, and its is_demo entry is true exactly when the
request path starts with the fixed demo path. -/
theorem C3_is_demo (db : List Project)
    (render : List (String × CtxValue) → String) (scope : Scope)
    (request : Request) (organization : Nat) (kwargs : List (String × String)) :
    Effect.renderTemplate (get_context request) ∈
        (dispatch db render scope request organization kwargs).2 ∧
    kwget (get_context request) "is_demo" =
      some (CtxValue.bool (request.path.startsWith "/sentry/earth/")) := by
  constructor
  · cases scope <;>
      simp [dispatch, ReactPageView.handle, GenericReactPageView.handle,
        DemoReactPageView.handle, GenericDemoReactPageView.handle, handle_react]
  · simp [get_context, kwget]

/-- Claim C4, counterexample: the onboarding parameter present with an
empty value, together with a project_id parameter matching an existing
project, does NOT take the lookup/emission branch: zero events are emitted. -/
theorem C4_counterexample :
    qget [("onboarding", "")] "onboarding" = some "" ∧
    ((ReactPageView.handle [{ organization := 0, slug := "internal" }] render0
        { path := "/organizations/acme/", GET := [("onboarding", "")], user := 3 }
        0 [("project_id", "internal")]).2.countP isFirstEventPending) = 0 := by
  decide

/-- Claim C4 (amended): the onboarding query parameter is a truthiness
flag, not a presence-only flag: the lookup/emission branch is taken exactly
when a project_id parameter is supplied and the onboarding parameter is
present with a non-empty value; an absent or empty-valued onboarding
parameter skips the branch. -/
theorem C4_onboarding_truthiness (db : List Project)
    (render : List (String × CtxValue) → String) (request : Request)
    (organization : Nat) (kwargs : List (String × String)) :
    (ReactPageView.handle db render request organization kwargs).2.countP
        isFirstEventPending =
      if (kwget kwargs "project_id").isSome &&
          truthy (qget request.GET "onboarding") then 1 else 0 := by
  cases h : kwget kwargs "project_id" with
  | none => simp [ReactPageView.handle, handle_react, h, isFirstEventPending]
  | some slug =>
    cases ht : truthy (qget request.GET "onboarding") <;>
      simp [ReactPageView.handle, handle_react, h, ht, isFirstEventPending]

/-- Claim C5: handle_react always returns a response with status 200 and
Content-Type text/html whose body is the rendered shell template string
(the templating collaborator applied to the render context). -/
theorem C5_render_shell (render : List (String × CtxValue) → String)
    (request : Request) :
    (handle_react render request).1.status = 200 ∧
    (handle_react render request).1.contentType = "text/html" ∧
    (handle_react render request).1.body = render (get_context request) :=
  ⟨rfl, rfl, rfl⟩

/-- Claim C6: in the effect trace of every handle_react execution, both the
CSRF-token effect and the template-rendering effect occur, and the first
CSRF-token effect occurs strictly before the first rendering effect. -/
theorem C6_csrf_before_render (render : List (String × CtxValue) → String)
    (request : Request) :
    (handle_react render request).2.any isCsrfToken = true ∧
    (handle_react render request).2.any isRenderTemplate = true ∧
    (handle_react render request).2.findIdx isCsrfToken <
      (handle_react render request).2.findIdx isRenderTemplate := by
  refine ⟨?_, ?_, ?_⟩ <;>
    simp [handle_react, isCsrfToken, isRenderTemplate, List.findIdx_cons]

/-- Claim C7: for every Scope variant, the response is exactly the one
produced by handle_react, and the effect trace is that of handle_react with
only first_event_pending emissions or message enqueues added around it. -/
theorem C7_frame (db : List Project)
    (render : List (String × CtxValue) → String) (scope : Scope)
    (request : Request) (organization : Nat) (kwargs : List (String × String)) :
    (dispatch db render scope request organization kwargs).1 =
      (handle_react render request).1 ∧
    ∃ pre post,
      (dispatch db render scope request organization kwargs).2 =
        pre ++ (handle_react render request).2 ++ post ∧
      (pre ++ post).all (fun e => isFirstEventPending e || isAddMessage e) = true := by
  cases scope with
  | organization =>
    refine ⟨rfl, ?_⟩
    cases h : kwget kwargs "project_id" with
    | none =>
      exact ⟨[], [], by simp [dispatch, ReactPageView.handle, h], by simp⟩
    | some slug =>
      cases ht : truthy (qget request.GET "onboarding") with
      | false =>
        exact ⟨[], [], by simp [dispatch, ReactPageView.handle, h, ht], by simp⟩
      | true =>
        exact ⟨[Effect.firstEventPending (projectFilterFirst db organization slug)
            request.user], [],
          by simp [dispatch, ReactPageView.handle, h, ht],
          by simp [isFirstEventPending]⟩
  | generic =>
    exact ⟨rfl, [], [], by simp [dispatch, GenericReactPageView.handle], by simp⟩
  | organizationDemo =>
    exact ⟨rfl, [], [Effect.addMessage WARNING demo_message],
      by simp [dispatch, DemoReactPageView.handle], by simp [isAddMessage]⟩
  | genericDemo =>
    exact ⟨rfl, [], [], by simp [dispatch, GenericDemoReactPageView.handle], by simp⟩

/-- Claim C8: the render context has exactly the three keys is_demo,
request and CSRF_COOKIE_NAME, in that order and no others; is_demo is
derived from the request path, request is passed through, and
CSRF_COOKIE_NAME is the configuration constant naming the CSRF cookie. -/
theorem C8_context_keys (request : Request) :
    (get_context request).map Prod.fst =
      ["is_demo", "request", "CSRF_COOKIE_NAME"] ∧
    kwget (get_context request) "is_demo" =
      some (CtxValue.bool (request.path.startsWith "/sentry/earth/")) ∧
    kwget (get_context request) "request" = some (CtxValue.req request) ∧
    kwget (get_context request) "CSRF_COOKIE_NAME" =
      some (CtxValue.str CSRF_COOKIE_NAME) :=
  ⟨rfl, rfl, rfl, rfl⟩

/-- Claim C9: GenericDemoReactPageView.handle and
GenericReactPageView.handle are extensionally equal, and both equal a bare
handle_react call: same response and same effect trace. -/
theorem C9_generic_demo_equiv (render : List (String × CtxValue) → String)
    (request : Request) (kwargs : List (String × String)) :
    GenericDemoReactPageView.handle render request kwargs =
      GenericReactPageView.handle render request kwargs ∧
    GenericDemoReactPageView.handle render request kwargs =
      handle_react render request :=
  ⟨rfl, rfl⟩

/-- Claim C10: the organization argument does not influence
DemoReactPageView.handle: any two organization values yield the identical
response and the identical effect trace (including the warning message). -/
theorem C10_org_noninterference (render : List (String × CtxValue) → String)
    (request : Request) (kwargs : List (String × String)) (org₁ org₂ : Nat) :
    DemoReactPageView.handle render request org₁ kwargs =
      DemoReactPageView.handle render request org₂ kwargs :=
  rfl
